import Mathlib

/-!
Shallow embedding of the TREKKER-CORE-BOT session lifecycle manager.

The repository contains two near-duplicate variants of the manager script
(referred to below as variant 0 and variant 1).  Both share the same store
operations (`isJidSubscribed`, `addToExpiredJids`, `addToRunningBots`,
`removeFromPendingSessions`, `getRunningBotsCount`) and the same scheduler
loop (`processPendingSessions`), but differ in `processSession`:

* variant 0 extracts a jid from the stored session data
  (`extractRemoteJidFromSession`) and checks the subscription against that
  declared metadata BEFORE opening any connection; its close handler deletes
  the `runningbots` row.
* variant 1 opens the connection first and checks the subscription against the
  connected socket's own user id inside the `connection.update` open handler;
  its close handler does NOT delete the `runningbots` row.

State is the four MongoDB collections plus the in-memory `activeBots` map
(modelled as the list of its keys, i.e. session ids).  The asynchronous
`connection.update` callbacks are modelled explicitly: the synchronous body of
`processSession` installs a handler, and a schedule (`Env.openNow`) says
whether a record's open event fires before the loop's next capacity check or
is deferred until after the drain pass.
-/

set_option maxRecDepth 8192

namespace Trekker

/-- A document of the `wasessions` collection (a pending session record).
`sessionId` is the canonical identifier under which the record is deleted;
`phoneNumber` is the optional declared phone number; `meId` models
`sessionData.me.id` and `historyRemoteJid` models
`sessionData.processedHistoryMessages[0].key.remoteJid` — declared, untrusted
metadata stored with the record (`none` or `some ""` model missing/falsy
fields as in the JavaScript truthiness tests). -/
structure PendingRecord where
  sessionId : String
  phoneNumber : Option String
  meId : Option String
  historyRemoteJid : Option String
deriving DecidableEq

/-- A document of the `runningbots` collection (unique index on `jid`). -/
structure RunningRow where
  jid : String
  sessionId : String
deriving DecidableEq

/-- A document of the `expiredjid` collection (append-only audit log). -/
structure ExpiredRow where
  phoneNumber : String
  reason : String
deriving DecidableEq

/-- The observable state: the four collections plus the keys of the in-memory
`activeBots` map (session ids of live socket handles). -/
structure St where
  pending : List PendingRecord
  validJids : List String
  running : List RunningRow
  expired : List ExpiredRow
  activeBots : List String
deriving DecidableEq

/-- `const MAX_BOTS = 15`. -/
def MAX_BOTS : Nat := 15

/-- `s.split(sep)[0]`: the prefix of `s` up to the first occurrence of the
separator (the whole string when the separator does not occur, `""` on the
empty string — exactly JavaScript's `split` first component). -/
def splitHead (sep : Char) (s : String) : String :=
  ⟨s.data.takeWhile (fun c => c ≠ sep)⟩

/-- `jid.split('@')[0]` (on the empty string this is `""`). -/
def extractPhoneNumber (jid : String) : String :=
  splitHead '@' jid

/-- `isJidSubscribed`: membership test against the `wavalidjid` collection. -/
def isJidSubscribed (st : St) (jid : String) : Bool :=
  st.validJids.contains jid

/-- `addToExpiredJids(phoneNumber)`: inserts one document whose `reason` field
is always the fixed string `'Invalid or expired session'`. -/
def addToExpiredJids (st : St) (phoneNumber : String) : St :=
  { st with expired := st.expired ++ [⟨phoneNumber, "Invalid or expired session"⟩] }

/-- `addToRunningBots(jid, sessionId)`: `insertOne` against the unique index on
`jid`; a duplicate-key error is caught and logged, leaving the state
unchanged. -/
def addToRunningBots (st : St) (jid sessionId : String) : St :=
  if st.running.any (fun r => r.jid == jid) then st
  else { st with running := st.running ++ [⟨jid, sessionId⟩] }

/-- `removeFromPendingSessions(sessionId)`: `deleteOne` keyed by the record's
canonical identifier (first matching document is removed; errors are caught). -/
def deleteOnePending (st : St) (sessionId : String) : St :=
  { st with pending := st.pending.eraseP (fun r => r.sessionId == sessionId) }

/-- `getRunningBotsCount()`: `countDocuments` on `runningbots`; if the store
query throws (`storeOk = false`) the catch block returns `0`. -/
def getRunningBotsCount (storeOk : Bool) (st : St) : Nat :=
  if storeOk then st.running.length else 0

/-- The `sessionData.me.id` fallback of `extractRemoteJidFromSession`:
`me.id.split(':')[0] + '@s.whatsapp.net'` when `me.id` is truthy. -/
def meJid (rec : PendingRecord) : Option String :=
  match rec.meId with
  | some id => if id = "" then none else
      some (splitHead ':' id ++ "@s.whatsapp.net")
  | none => none

/-- `extractRemoteJidFromSession(sessionData)` (variant 0): first message's
`key.remoteJid` if truthy, else the `me.id` fallback, else `null`. -/
def extractRemoteJidFromSession (rec : PendingRecord) : Option String :=
  match rec.historyRemoteJid with
  | some h => if h = "" then meJid rec else some h
  | none => meJid rec

/-- `activeBots.set(sessionId, sock)` on the key set of the map. -/
def addBot (bots : List String) (id : String) : List String :=
  if bots.contains id then bots else bots ++ [id]

/-- The shared catch block of `processSession`:
`extractPhoneNumber(sessionData.phoneNumber || '')`, conditionally
`addToExpiredJids`, then `removeFromPendingSessions`. -/
def catchBlock (st : St) (rec : PendingRecord) : St :=
  let phone := extractPhoneNumber (rec.phoneNumber.getD "")
  let st1 := if phone = "" then st else addToExpiredJids st phone
  deleteOnePending st1 rec.sessionId

/-- Outcome of the synchronous body of `processSession`. -/
inductive ProcResult where
  | noJid
  | rejectedUnauthorized
  | deferredCapacity
  | handlerInstalled
  | errored
deriving DecidableEq

/-- Synchronous body of variant 1's `processSession`: capacity gate, then
socket creation (`connectOk = false` models `createWhatsAppBot` throwing,
which lands in the catch block); on success the `connection.update` handler is
installed and nothing else happens synchronously. -/
def processSessionSync1 (storeOk connectOk : Bool) (st : St) (rec : PendingRecord) :
    St × ProcResult :=
  if MAX_BOTS ≤ getRunningBotsCount storeOk st then (st, ProcResult.deferredCapacity)
  else if connectOk then (st, ProcResult.handlerInstalled)
  else (catchBlock st rec, ProcResult.errored)

/-- Result of variant 0's synchronous `processSession` body, together with the
list of jids that were passed to `isJidSubscribed` during the call. -/
structure Out0 where
  st : St
  result : ProcResult
  authQueried : List String
deriving DecidableEq

/-- Synchronous body of variant 0's `processSession`: extract the jid from the
stored session data; if absent, remove the pending record; otherwise check the
subscription AGAINST THAT EXTRACTED JID (before any connection exists), then
the capacity gate, then socket creation. -/
def processSessionSync0 (storeOk connectOk : Bool) (st : St) (rec : PendingRecord) : Out0 :=
  match extractRemoteJidFromSession rec with
  | none => ⟨deleteOnePending st rec.sessionId, ProcResult.noJid, []⟩
  | some remoteJid =>
    if isJidSubscribed st remoteJid = false then
      ⟨deleteOnePending (addToExpiredJids st (extractPhoneNumber remoteJid)) rec.sessionId,
        ProcResult.rejectedUnauthorized, [remoteJid]⟩
    else if MAX_BOTS ≤ getRunningBotsCount storeOk st then
      ⟨st, ProcResult.deferredCapacity, [remoteJid]⟩
    else if connectOk then ⟨st, ProcResult.handlerInstalled, [remoteJid]⟩
    else ⟨catchBlock st rec, ProcResult.errored, [remoteJid]⟩

/-- Variant 1's `connection.update` open handler: `activeBots.set`, then the
subscription check against `sock.user.id` (`userId`, the connection's
confirmed identity); if subscribed, `addToRunningBots(jid, sessionId)`; else
`sock.end()` and `activeBots.delete(sessionId)`; in both branches
`removeFromPendingSessions(sessionId)`.  Also returns the jids passed to
`isJidSubscribed`. -/
def openHandler1 (st : St) (rec : PendingRecord) (userId : String) :
    St × List String :=
  let st1 := { st with activeBots := addBot st.activeBots rec.sessionId }
  if isJidSubscribed st1 userId then
    (deleteOnePending (addToRunningBots st1 userId rec.sessionId) rec.sessionId, [userId])
  else
    (deleteOnePending { st1 with activeBots := st1.activeBots.erase rec.sessionId }
      rec.sessionId, [userId])

/-- Variant 0's `connection.update` open handler (the subscription was already
checked before connecting): `activeBots.set`, `addToRunningBots(remoteJid,
sessionId)`, `removeFromPendingSessions(sessionId)`. -/
def openHandler0 (st : St) (rec : PendingRecord) (remoteJid : String) : St :=
  let st1 := { st with activeBots := addBot st.activeBots rec.sessionId }
  deleteOnePending (addToRunningBots st1 remoteJid rec.sessionId) rec.sessionId

/-- Variant 0's `connection.update` close handler: on a definitive logout
(`DisconnectReason.loggedOut`) record the phone in `expiredjid`; then always
`activeBots.delete(sessionId)`, `deleteOne({jid: remoteJid})` on
`runningbots`, and `removeFromPendingSessions(sessionId)`.  No reconnection
is attempted. -/
def closeHandler0 (st : St) (rec : PendingRecord) (remoteJid : String)
    (loggedOut : Bool) : St :=
  let phone := extractPhoneNumber remoteJid
  let st1 := if loggedOut then (if phone = "" then st else addToExpiredJids st phone) else st
  let st2 := { st1 with activeBots := st1.activeBots.erase rec.sessionId }
  let st3 := { st2 with running := st2.running.eraseP (fun r => r.jid == remoteJid) }
  deleteOnePending st3 rec.sessionId

/-- Variant 1's `connection.update` close handler: on a definitive logout
record the phone from `sock.user?.id || ''` in `expiredjid`; then
`activeBots.delete(sessionId)` and `removeFromPendingSessions(sessionId)`.
The `runningbots` row is NOT deleted, and no reconnection is attempted. -/
def closeHandler1 (st : St) (rec : PendingRecord) (sockUserId : String)
    (loggedOut : Bool) : St :=
  let phone := extractPhoneNumber sockUserId
  let st1 := if loggedOut then (if phone = "" then st else addToExpiredJids st phone) else st
  let st2 := { st1 with activeBots := st1.activeBots.erase rec.sessionId }
  deleteOnePending st2 rec.sessionId

/-- Environment of one drain pass: whether store queries succeed, whether each
record's socket creation succeeds, whether its asynchronous open event fires
before the loop's next capacity check (`openNow`) or only after the pass, and
the confirmed identity (`sock.user.id`) the provider reports per record. -/
structure Env where
  storeOk : Bool
  connectOk : String → Bool
  openNow : String → Bool
  userId : String → String

/-- The `for` loop of `processPendingSessions` (variant 1's `processSession`):
before each record, re-check the capacity gate and `break` when
`runningCount >= MAX_BOTS`; otherwise run the synchronous body; an installed
open handler either fires now (`openNow`) or is queued (returned as the list
of deferred records whose open events fire after the pass). -/
def processLoop (env : Env) :
    List PendingRecord → St → List PendingRecord → St × List PendingRecord
  | [], st, q => (st, q)
  | r :: rs, st, q =>
    if MAX_BOTS ≤ getRunningBotsCount env.storeOk st then (st, q)
    else
      match processSessionSync1 env.storeOk (env.connectOk r.sessionId) st r with
      | (st1, ProcResult.handlerInstalled) =>
        if env.openNow r.sessionId then
          processLoop env rs (openHandler1 st1 r (env.userId r.sessionId)).1 q
        else
          processLoop env rs st1 (q ++ [r])
      | (st1, _) => processLoop env rs st1 q

/-- One drain pass over a snapshot of the pending collection. -/
def processPendingSessions1 (env : Env) (st : St) : St × List PendingRecord :=
  processLoop env st.pending st []

/-- Fire the deferred open events after the pass. -/
def flushOpens (env : Env) (st : St) (q : List PendingRecord) : St :=
  q.foldl (fun s r => (openHandler1 s r (env.userId r.sessionId)).1) st

/-- The spec's pool/store consistency invariant: a `runningbots` row exists
iff a live handle for its session is in the in-memory `activeBots` map. -/
def poolStoreConsistent (st : St) : Bool :=
  st.running.all (fun r => st.activeBots.contains r.sessionId) &&
    st.activeBots.all (fun s => st.running.any (fun r => r.sessionId == s))

/-- The duplicate-key error raised by the store's unique index. -/
def dupKeyMsg : String := "E11000 duplicate key error"

/-- `insertOne` into `wasessions` under the unique index on `sessionId`
created by `setup.js`. -/
def insertPendingUnique (st : St) (rec : PendingRecord) : Except String St :=
  if st.pending.any (fun r => r.sessionId == rec.sessionId) then Except.error dupKeyMsg
  else Except.ok { st with pending := st.pending ++ [rec] }

/-- `POST /add-session`: reject a missing session id, then `insertOne` (a
store-level duplicate-key error becomes a 500 response). -/
def addSessionEndpoint (st : St) (sessionId : String) (phoneNumber : Option String) :
    Except String St :=
  if sessionId = "" then Except.error "Session ID is required"
  else insertPendingUnique st ⟨sessionId, phoneNumber, none, none⟩

/-- `POST /upload-session`: reject a missing session id or session data; then
an application-level `findOne` duplicate check; then `insertOne`. -/
def uploadSessionEndpoint (st : St) (sessionId : String) (phoneNumber : Option String)
    (hasSessionData : Bool) (meId historyRemoteJid : Option String) : Except String St :=
  if sessionId = "" then Except.error "Session ID is required"
  else if hasSessionData = false then Except.error "Session data is required"
  else if st.pending.any (fun r => r.sessionId == sessionId) then
    Except.error "Session ID already exists"
  else insertPendingUnique st ⟨sessionId, phoneNumber, meId, historyRemoteJid⟩

/-- Outcome of process startup. -/
inductive StartResult where
  | exited
  | started
deriving DecidableEq

/-- `startApplication`: `process.exit(1)` when the initial MongoDB connection
fails, otherwise the scheduler and HTTP server start. -/
def startApplication (mongoConnected : Bool) : StartResult :=
  if mongoConnected then StartResult.started else StartResult.exited

/-! ### Concrete demonstration data -/

/-- Sixteen pending records with distinct session ids and no stored metadata. -/
def demoRecs : List PendingRecord :=
  [⟨"s1", none, none, none⟩, ⟨"s2", none, none, none⟩, ⟨"s3", none, none, none⟩,
   ⟨"s4", none, none, none⟩, ⟨"s5", none, none, none⟩, ⟨"s6", none, none, none⟩,
   ⟨"s7", none, none, none⟩, ⟨"s8", none, none, none⟩, ⟨"s9", none, none, none⟩,
   ⟨"s10", none, none, none⟩, ⟨"s11", none, none, none⟩, ⟨"s12", none, none, none⟩,
   ⟨"s13", none, none, none⟩, ⟨"s14", none, none, none⟩, ⟨"s15", none, none, none⟩,
   ⟨"s16", none, none, none⟩]

/-- The confirmed identity the provider reports for each demo session. -/
def demoUserId (s : String) : String := s.drop 1 ++ "@w.net"

/-- Sixteen pending, all sixteen identities subscribed, nothing running. -/
def demoSt : St := ⟨demoRecs, demoRecs.map (fun r => demoUserId r.sessionId), [], [], []⟩

/-- All sockets open, every open callback deferred until after the pass. -/
def envDeferred : Env := ⟨true, fun _ => true, fun _ => false, demoUserId⟩

/-- All sockets open, every open callback fires before the next capacity
check. -/
def envSync : Env := ⟨true, fun _ => true, fun _ => true, demoUserId⟩

/-- An environment in which every socket creation throws. -/
def envFail : Env := ⟨true, fun _ => false, fun _ => true, demoUserId⟩

/-- A store state whose `runningbots` collection already holds `MAX_BOTS`
rows. -/
def fullSt : St := ⟨demoRecs, [], List.replicate 15 ⟨"j@w.net", "s0"⟩, [], []⟩

/-- A record whose stored session metadata declares `me.id`. -/
def c2rec : PendingRecord := ⟨"sx", none, some "111:22@w.net", none⟩

/-- A store holding only `c2rec`, with no subscriptions. -/
def c2st : St := ⟨[c2rec], [], [], [], []⟩

/-- A metadata-free pending record. -/
def c3rec : PendingRecord := ⟨"c3", none, none, none⟩

/-- A store holding only `c3rec`, with no subscriptions. -/
def c3st : St := ⟨[c3rec], [], [], [], []⟩

/-- A record declaring `me.id = "9:1@w.net"`. -/
def c3recMe : PendingRecord := ⟨"c3a", none, some "9:1@w.net", none⟩

/-- A store holding only `c3recMe`, with no subscriptions. -/
def c3stW : St := ⟨[c3recMe], [], [], [], []⟩

/-- A metadata-free pending record with session id `"c4"`. -/
def c4rec : PendingRecord := ⟨"c4", none, none, none⟩

/-- A state with one active worker: a running row for `"5@w.net"` and its
live handle. -/
def c4st : St := ⟨[], [], [⟨"5@w.net", "c4"⟩], [], ["c4"]⟩

/-- A metadata-free pending record with session id `"c7"`. -/
def c7rec : PendingRecord := ⟨"c7", none, none, none⟩

/-- One pending record whose identity `"7@w.net"` is subscribed. -/
def c7stStart : St := ⟨[c7rec], ["7@w.net"], [], [], []⟩

/-- The state after `c7rec` is activated by variant 1's open handler. -/
def c7stActive : St := (openHandler1 c7stStart c7rec "7@w.net").1

/-- The state after the worker's connection then closes (variant 1, not a
logout). -/
def c7stClosed : St := closeHandler1 c7stActive c7rec "7@w.net" false

/-- The empty store. -/
def emptySt : St := ⟨[], [], [], [], []⟩

/-- A pending record with no declared phone number. -/
def c9rec : PendingRecord := ⟨"e1", none, none, none⟩

/-- A store holding only `c9rec`. -/
def c9st : St := ⟨[c9rec], [], [], [], []⟩

/-! ### Helper lemmas -/

/-- `List.eraseP` is idempotent on lists with at most one match. -/
theorem eraseP_idem_of_countP_le_one {α : Type} (p : α → Bool) (l : List α)
    (h : l.countP p ≤ 1) : (l.eraseP p).eraseP p = l.eraseP p := by
  induction l with
  | nil => rfl
  | cons a t ih =>
    by_cases hp : p a
    · rw [List.eraseP_cons_of_pos hp]
      have ht : t.countP p = 0 := by
        rw [List.countP_cons] at h
        simp only [hp, if_true] at h
        omega
      exact List.eraseP_of_forall_not (List.countP_eq_zero.mp ht)
    · rw [List.eraseP_cons_of_neg hp, List.eraseP_cons_of_neg hp]
      have ht : t.countP p ≤ 1 := by
        rw [List.countP_cons] at h
        simp only [hp, if_false] at h
        omega
      rw [ih ht]

theorem running_catchBlock (st : St) (rec : PendingRecord) :
    (catchBlock st rec).running = st.running := by
  simp only [catchBlock, deleteOnePending, addToExpiredJids]
  split <;> rfl

theorem running_openHandler1_le (st : St) (rec : PendingRecord) (u : String) :
    ((openHandler1 st rec u).1).running.length ≤ st.running.length + 1 := by
  simp only [openHandler1, addToRunningBots, deleteOnePending]
  split
  · split <;> simp
  · simp

/-- When the capacity gate is open, variant 1's synchronous body either
installs the handler or runs the catch block. -/
theorem processSessionSync1_gate_open (storeOk c : Bool) (st : St) (rec : PendingRecord)
    (h : getRunningBotsCount storeOk st < MAX_BOTS) :
    processSessionSync1 storeOk c st rec =
      if c then (st, ProcResult.handlerInstalled)
      else (catchBlock st rec, ProcResult.errored) := by
  simp only [processSessionSync1]
  rw [if_neg (Nat.not_le.mpr h)]

/-- When the capacity gate is closed at a loop iteration, the loop returns
immediately, leaving the state and the deferred queue untouched. -/
theorem processLoop_stop (env : Env) (recs : List PendingRecord) (st : St)
    (q : List PendingRecord) (h : MAX_BOTS ≤ getRunningBotsCount env.storeOk st) :
    processLoop env recs st q = (st, q) := by
  cases recs with
  | nil => rfl
  | cons r rs =>
    simp only [processLoop]
    rw [if_pos h]

/-- One open-gate loop iteration, unfolded. -/
theorem processLoop_cons_gate_open (env : Env) (r : PendingRecord)
    (rs : List PendingRecord) (st : St) (q : List PendingRecord)
    (h : getRunningBotsCount env.storeOk st < MAX_BOTS) :
    processLoop env (r :: rs) st q =
      if env.connectOk r.sessionId then
        (if env.openNow r.sessionId then
          processLoop env rs (openHandler1 st r (env.userId r.sessionId)).1 q
        else processLoop env rs st (q ++ [r]))
      else processLoop env rs (catchBlock st r) q := by
  simp only [processLoop]
  rw [if_neg (Nat.not_le.mpr h), processSessionSync1_gate_open env.storeOk _ st r h]
  cases hc : env.connectOk r.sessionId <;> simp

/-- Capacity invariant of a drain pass under the synchronous-open schedule:
if every admitted record's open callback fires before the next capacity
check, a pass that starts at or below the cap stays at or below it, and no
open callbacks remain queued. -/
theorem processLoop_cap (env : Env) (recs : List PendingRecord) (st : St)
    (q : List PendingRecord) (hs : env.storeOk = true)
    (ho : ∀ s, env.openNow s = true) (h : st.running.length ≤ MAX_BOTS) :
    ((processLoop env recs st q).1).running.length ≤ MAX_BOTS ∧
      (processLoop env recs st q).2 = q := by
  induction recs generalizing st q with
  | nil => exact ⟨h, rfl⟩
  | cons r rs ih =>
    by_cases hg : MAX_BOTS ≤ getRunningBotsCount env.storeOk st
    · rw [processLoop_stop env _ st q hg]
      exact ⟨h, rfl⟩
    · have hlt : getRunningBotsCount env.storeOk st < MAX_BOTS := Nat.lt_of_not_le hg
      rw [processLoop_cons_gate_open env r rs st q hlt]
      have hcount : st.running.length < MAX_BOTS := by
        rw [getRunningBotsCount, hs, if_pos rfl] at hlt
        exact hlt
      cases hc : env.connectOk r.sessionId
      · simp only [Bool.false_eq_true, if_false]
        exact ih (catchBlock st r) q (by rw [running_catchBlock]; omega)
      · simp only [if_pos rfl, ho r.sessionId]
        refine ih _ q ?_
        have := running_openHandler1_le st r (env.userId r.sessionId)
        omega

/-! ### Claim C1 -/

/-- C1 (amended): the capacity gate keeps `count(runningbots) ≤ MAX_BOTS`
across a drain pass only under the synchronous schedule, in which every
admitted record's connection-open callback (which performs the running-row
insertion) completes before the loop's next capacity check.  The loop state
`st` is arbitrary, so the bound holds at every observation point of such a
pass. -/
theorem c1_capacity_gate_sync_only (env : Env) (recs : List PendingRecord)
    (st : St) (q : List PendingRecord) (hs : env.storeOk = true)
    (ho : ∀ s, env.openNow s = true) (h : st.running.length ≤ MAX_BOTS) :
    ((processLoop env recs st q).1).running.length ≤ MAX_BOTS :=
  (processLoop_cap env recs st q hs ho h).1

theorem c1_capacity_gate_sync_only_witness :
    ((processLoop envSync demoRecs demoSt []).1).running.length ≤ MAX_BOTS :=
  c1_capacity_gate_sync_only envSync demoRecs demoSt [] rfl (fun _ => rfl) (by decide)

/-- C1 (counterexample): with sixteen authorized pending records, a cap of
15 and zero running workers, one drain pass whose connection-open callbacks
are all deferred past the capacity checks admits all sixteen records; after
the callbacks run, the `runningbots` collection holds 16 > 15 rows, so the
capacity gate does NOT prevent the count from exceeding the cap when the
running-row insertion happens later inside the asynchronous callback. -/
theorem c1_counterexample :
    MAX_BOTS <
      (flushOpens envDeferred (processPendingSessions1 envDeferred demoSt).1
        (processPendingSessions1 envDeferred demoSt).2).running.length := by
  decide

/-! ### Claim C5 -/

/-- C5: when a capacity check finds `count_running ≥ MAX_BOTS`, the drain
loop returns immediately — the rest of the snapshot is neither processed nor
rejected, and the state (hence every remaining pending record) is untouched;
and in the concrete scenario of sixteen pending records, cap 15, zero
running, all authorized and connecting successfully, one pass leaves exactly
15 running rows and exactly the sixteenth record pending, with no
rejections (`expiredjid` stays empty). -/
theorem c5_halt_and_scenario :
    (∀ env recs st q, MAX_BOTS ≤ getRunningBotsCount env.storeOk st →
      processLoop env recs st q = (st, q)) ∧
    ((processPendingSessions1 envSync demoSt).1.running.length = 15 ∧
      (processPendingSessions1 envSync demoSt).1.pending = [⟨"s16", none, none, none⟩] ∧
      (processPendingSessions1 envSync demoSt).1.expired = [] ∧
      (processPendingSessions1 envSync demoSt).2 = []) := by
  refine ⟨fun env recs st q h => processLoop_stop env recs st q h, ?_⟩
  decide

theorem c5_halt_and_scenario_witness :
    processLoop envSync demoRecs fullSt [] = (fullSt, []) :=
  c5_halt_and_scenario.1 envSync demoRecs fullSt [] (by decide)

/-! ### Claim C2 -/

/-- C2 (amended): variant 1's open handler checks the subscription exactly
against the connection's confirmed identity `sock.user.id`; but variant 0
passes to every subscription check exactly the jid extracted from the
pending record's stored session metadata (`extractRemoteJidFromSession`),
before any connection is opened. -/
theorem c2_auth_input_by_variant :
    (∀ st rec u, (openHandler1 st rec u).2 = [u]) ∧
    (∀ storeOk c st rec, (processSessionSync0 storeOk c st rec).authQueried =
      (extractRemoteJidFromSession rec).toList) := by
  constructor
  · intro st rec u
    simp only [openHandler1]
    split <;> rfl
  · intro storeOk c st rec
    cases he : extractRemoteJidFromSession rec with
    | none => simp [processSessionSync0, he]
    | some j =>
      simp only [processSessionSync0, he, Option.toList]
      split
      · rfl
      · split
        · rfl
        · split <;> rfl

/-- C2 (counterexample): for a record whose stored metadata declares
`me.id = "111:22@w.net"`, variant 0's processing queries the subscription
store with `"111@s.whatsapp.net"` — a value derived from the record's
declared metadata — and rejects the session before any connection exists,
refuting "never against identity data derived from the pending record's
declared/stored metadata". -/
theorem c2_counterexample :
    (processSessionSync0 true true c2st c2rec).authQueried = ["111@s.whatsapp.net"] ∧
    meJid c2rec = some "111@s.whatsapp.net" ∧
    (processSessionSync0 true true c2st c2rec).result =
      ProcResult.rejectedUnauthorized := by
  decide

/-! ### Claim C3 -/

/-- C3 (counterexample): in variant 1, rejecting the unauthorized identity
`"7@w.net"` removes the pending record and creates no running row, but
appends NO `expiredjid` document at all — not "exactly one ExpiredRecord
with reason `not-authorized`". -/
theorem c3_counterexample :
    ((openHandler1 c3st c3rec "7@w.net").1).expired = [] ∧
    ((openHandler1 c3st c3rec "7@w.net").1).running = [] ∧
    ((openHandler1 c3st c3rec "7@w.net").1).pending = [] ∧
    isJidSubscribed c3st "7@w.net" = false := by
  decide

/-- C3 (amended): an unauthorized identity is rejected without ever creating
a running row and with its pending record removed, but the audit trail
differs by variant: variant 0 appends exactly one `expiredjid` document
whose reason is the fixed string `'Invalid or expired session'` (there is no
`not-authorized` reason in the code), while variant 1 appends none. -/
theorem c3_reject_paths :
    (∀ storeOk c st rec j, extractRemoteJidFromSession rec = some j →
      isJidSubscribed st j = false →
      (processSessionSync0 storeOk c st rec).st.expired =
        st.expired ++ [⟨extractPhoneNumber j, "Invalid or expired session"⟩] ∧
      (processSessionSync0 storeOk c st rec).st.running = st.running ∧
      (processSessionSync0 storeOk c st rec).st.pending =
        st.pending.eraseP (fun r => r.sessionId == rec.sessionId) ∧
      (processSessionSync0 storeOk c st rec).result =
        ProcResult.rejectedUnauthorized) ∧
    (∀ st rec u, isJidSubscribed st u = false →
      ((openHandler1 st rec u).1).expired = st.expired ∧
      ((openHandler1 st rec u).1).running = st.running ∧
      ((openHandler1 st rec u).1).pending =
        st.pending.eraseP (fun r => r.sessionId == rec.sessionId)) := by
  constructor
  · intro storeOk c st rec j hext hsub
    refine ⟨?_, ?_, ?_, ?_⟩ <;>
      simp [processSessionSync0, hext, hsub, deleteOnePending, addToExpiredJids]
  · intro st rec u hsub
    have h2 : u ∉ st.validJids := by
      simpa [isJidSubscribed] using hsub
    refine ⟨?_, ?_, ?_⟩ <;>
      simp [openHandler1, isJidSubscribed, h2, deleteOnePending, addToRunningBots]

theorem c3_reject_paths_witness :
    (processSessionSync0 true true c3stW c3recMe).st.expired =
      c3stW.expired ++
        [⟨extractPhoneNumber "9@s.whatsapp.net", "Invalid or expired session"⟩] ∧
    (processSessionSync0 true true c3stW c3recMe).st.running = c3stW.running ∧
    (processSessionSync0 true true c3stW c3recMe).st.pending =
      c3stW.pending.eraseP (fun r => r.sessionId == c3recMe.sessionId) ∧
    (processSessionSync0 true true c3stW c3recMe).result =
      ProcResult.rejectedUnauthorized :=
  c3_reject_paths.1 true true c3stW c3recMe "9@s.whatsapp.net" (by decide) (by decide)

/-! ### Claim C4 -/

/-- C4 (counterexample): a non-logout close in variant 1 leaves the
`runningbots` row in place (the claim says the row is still removed), and a
definitive-logout close in variant 0 records the fixed reason string
`'Invalid or expired session'`, not `logged-out`. -/
theorem c4_counterexample :
    (closeHandler1 c4st c4rec "5@w.net" false).running = [⟨"5@w.net", "c4"⟩] ∧
    (closeHandler0 c4st c4rec "5@w.net" true).expired =
      [⟨"5", "Invalid or expired session"⟩] ∧
    ("Invalid or expired session" : String) ≠ "logged-out" := by
  decide

/-- C4 (amended): on any close, variant 0 removes the running row for the
identity while variant 1 never does; a non-logout close writes no
`expiredjid` document in either variant; a definitive logout writes exactly
one document — with the fixed reason string `'Invalid or expired session'`,
not `logged-out` — in variant 0 against the record's jid, and in variant 1
only when the phone extracted from `sock.user?.id || ''` is non-empty (a
logout with no exposed user id writes none); both variants drop the
in-memory handle and the pending record, and neither re-adds anything (no
automatic reconnection). -/
theorem c4_close_paths (st : St) (rec : PendingRecord) (j u : String) (lo : Bool) :
    (closeHandler0 st rec j lo).running =
      st.running.eraseP (fun r => r.jid == j) ∧
    (closeHandler1 st rec u lo).running = st.running ∧
    (closeHandler0 st rec j false).expired = st.expired ∧
    (closeHandler1 st rec u false).expired = st.expired ∧
    (extractPhoneNumber j ≠ "" →
      (closeHandler0 st rec j true).expired =
        st.expired ++ [⟨extractPhoneNumber j, "Invalid or expired session"⟩]) ∧
    (extractPhoneNumber u ≠ "" →
      (closeHandler1 st rec u true).expired =
        st.expired ++ [⟨extractPhoneNumber u, "Invalid or expired session"⟩]) ∧
    (extractPhoneNumber u = "" →
      (closeHandler1 st rec u true).expired = st.expired) ∧
    (closeHandler0 st rec j lo).activeBots = st.activeBots.erase rec.sessionId ∧
    (closeHandler1 st rec u lo).activeBots = st.activeBots.erase rec.sessionId ∧
    (closeHandler0 st rec j lo).pending =
      st.pending.eraseP (fun r => r.sessionId == rec.sessionId) ∧
    (closeHandler1 st rec u lo).pending =
      st.pending.eraseP (fun r => r.sessionId == rec.sessionId) := by
  refine ⟨?_, ?_, ?_, ?_, ?_, ?_, ?_, ?_, ?_, ?_, ?_⟩
  · cases lo <;> by_cases hp : extractPhoneNumber j = "" <;>
      simp [closeHandler0, addToExpiredJids, deleteOnePending, hp]
  · cases lo <;> by_cases hp : extractPhoneNumber u = "" <;>
      simp [closeHandler1, addToExpiredJids, deleteOnePending, hp]
  · simp [closeHandler0, deleteOnePending]
  · simp [closeHandler1, deleteOnePending]
  · intro hp
    simp [closeHandler0, addToExpiredJids, deleteOnePending, hp]
  · intro hp
    simp [closeHandler1, addToExpiredJids, deleteOnePending, hp]
  · intro hp
    simp [closeHandler1, addToExpiredJids, deleteOnePending, hp]
  · cases lo <;> by_cases hp : extractPhoneNumber j = "" <;>
      simp [closeHandler0, addToExpiredJids, deleteOnePending, hp]
  · cases lo <;> by_cases hp : extractPhoneNumber u = "" <;>
      simp [closeHandler1, addToExpiredJids, deleteOnePending, hp]
  · cases lo <;> by_cases hp : extractPhoneNumber j = "" <;>
      simp [closeHandler0, addToExpiredJids, deleteOnePending, hp]
  · cases lo <;> by_cases hp : extractPhoneNumber u = "" <;>
      simp [closeHandler1, addToExpiredJids, deleteOnePending, hp]

theorem c4_close_paths_witness :
    ((closeHandler0 c4st c4rec "5@w.net" true).expired =
      c4st.expired ++
        [⟨extractPhoneNumber "5@w.net", "Invalid or expired session"⟩]) ∧
    ((closeHandler1 c4st c4rec "5@w.net" true).expired =
      c4st.expired ++
        [⟨extractPhoneNumber "5@w.net", "Invalid or expired session"⟩]) ∧
    ((closeHandler1 c4st c4rec "" true).expired = c4st.expired) :=
  ⟨(c4_close_paths c4st c4rec "5@w.net" "5@w.net" true).2.2.2.2.1 (by decide),
   (c4_close_paths c4st c4rec "5@w.net" "5@w.net" true).2.2.2.2.2.1 (by decide),
   (c4_close_paths c4st c4rec "5@w.net" "" true).2.2.2.2.2.2.1 (by decide)⟩

/-! ### Claim C6 -/

/-- C6: every terminal branch of session processing — the catch block,
variant 1's open handler (both authorization outcomes), both close handlers,
variant 0's open handler, and variant 0's missing-identity branch — removes
the pending record by exactly one `deleteOne` on its session id; and when
the store holds at most one record for that id (the uniqueness index), a
repeated removal changes nothing (idempotence). -/
theorem c6_pending_removal :
    (∀ st id, st.pending.countP (fun r => r.sessionId == id) ≤ 1 →
      deleteOnePending (deleteOnePending st id) id = deleteOnePending st id) ∧
    (∀ st rec, (catchBlock st rec).pending =
      st.pending.eraseP (fun r => r.sessionId == rec.sessionId)) ∧
    (∀ st rec u, ((openHandler1 st rec u).1).pending =
      st.pending.eraseP (fun r => r.sessionId == rec.sessionId)) ∧
    (∀ st rec u lo, (closeHandler1 st rec u lo).pending =
      st.pending.eraseP (fun r => r.sessionId == rec.sessionId)) ∧
    (∀ st rec j lo, (closeHandler0 st rec j lo).pending =
      st.pending.eraseP (fun r => r.sessionId == rec.sessionId)) ∧
    (∀ st rec j, (openHandler0 st rec j).pending =
      st.pending.eraseP (fun r => r.sessionId == rec.sessionId)) ∧
    (∀ storeOk c st rec, extractRemoteJidFromSession rec = none →
      (processSessionSync0 storeOk c st rec).st.pending =
        st.pending.eraseP (fun r => r.sessionId == rec.sessionId)) := by
  refine ⟨?_, ?_, ?_, ?_, ?_, ?_, ?_⟩
  · intro st id h
    simp only [deleteOnePending]
    rw [eraseP_idem_of_countP_le_one _ _ h]
  · intro st rec
    simp only [catchBlock, deleteOnePending, addToExpiredJids]
    split <;> rfl
  · intro st rec u
    simp only [openHandler1, deleteOnePending, addToRunningBots]
    split
    · split <;> rfl
    · rfl
  · intro st rec u lo
    cases lo <;> by_cases hp : extractPhoneNumber u = "" <;>
      simp [closeHandler1, addToExpiredJids, deleteOnePending, hp]
  · intro st rec j lo
    cases lo <;> by_cases hp : extractPhoneNumber j = "" <;>
      simp [closeHandler0, addToExpiredJids, deleteOnePending, hp]
  · intro st rec j
    simp only [openHandler0, deleteOnePending, addToRunningBots]
    split <;> rfl
  · intro storeOk c st rec h
    simp [processSessionSync0, h, deleteOnePending]

theorem c6_pending_removal_witness :
    deleteOnePending (deleteOnePending c3st "c3") "c3" = deleteOnePending c3st "c3" :=
  c6_pending_removal.1 c3st "c3" (by decide)

/-! ### Claim C7 -/

/-- C7 (counterexample): starting from a consistent state, variant 1's
activation keeps the pool and the `runningbots` set consistent, but its
close handler removes only the in-memory handle: afterwards a running row
for `"7@w.net"` exists with no corresponding live handle, so the iff
invariant fails at an observation point outside any transition. -/
theorem c7_counterexample :
    poolStoreConsistent c7stActive = true ∧
    poolStoreConsistent c7stClosed = false ∧
    c7stClosed.running = [⟨"7@w.net", "c7"⟩] ∧
    c7stClosed.activeBots = [] := by
  decide

/-- C7 (amended): activation (in both variants) adds the running row and the
live handle together, and variant 0's close removes both together; but
variant 1's close removes only the in-memory handle and never touches the
`runningbots` row, so only variant 0 keeps the two sides consistent on every
transition. -/
theorem c7_pool_store_transitions :
    (∀ st rec j lo,
      (closeHandler0 st rec j lo).activeBots = st.activeBots.erase rec.sessionId ∧
      (closeHandler0 st rec j lo).running =
        st.running.eraseP (fun r => r.jid == j)) ∧
    (∀ st rec u lo,
      (closeHandler1 st rec u lo).activeBots = st.activeBots.erase rec.sessionId ∧
      (closeHandler1 st rec u lo).running = st.running) ∧
    (∀ st rec u, isJidSubscribed st u = true →
      st.running.any (fun r => r.jid == u) = false →
      ((openHandler1 st rec u).1).running = st.running ++ [⟨u, rec.sessionId⟩] ∧
      ((openHandler1 st rec u).1).activeBots = addBot st.activeBots rec.sessionId) ∧
    (∀ st rec j, st.running.any (fun r => r.jid == j) = false →
      (openHandler0 st rec j).running = st.running ++ [⟨j, rec.sessionId⟩] ∧
      (openHandler0 st rec j).activeBots = addBot st.activeBots rec.sessionId) := by
  refine ⟨?_, ?_, ?_, ?_⟩
  · intro st rec j lo
    constructor <;>
      (cases lo <;> by_cases hp : extractPhoneNumber j = "" <;>
        simp [closeHandler0, addToExpiredJids, deleteOnePending, hp])
  · intro st rec u lo
    constructor <;>
      (cases lo <;> by_cases hp : extractPhoneNumber u = "" <;>
        simp [closeHandler1, addToExpiredJids, deleteOnePending, hp])
  · intro st rec u hsub hany
    have h2 : u ∈ st.validJids := by
      simpa [isJidSubscribed] using hsub
    have h3 : ¬ ∃ x ∈ st.running, x.jid = u := by
      simpa using hany
    constructor <;>
      simp [openHandler1, isJidSubscribed, addToRunningBots, deleteOnePending, h2, h3]
  · intro st rec j hany
    have h3 : ¬ ∃ x ∈ st.running, x.jid = j := by
      simpa using hany
    constructor <;>
      simp [openHandler0, addToRunningBots, deleteOnePending, h3]

theorem c7_pool_store_transitions_witness :
    ((openHandler1 c7stStart c7rec "7@w.net").1).running =
      c7stStart.running ++ [⟨"7@w.net", c7rec.sessionId⟩] ∧
    ((openHandler1 c7stStart c7rec "7@w.net").1).activeBots =
      addBot c7stStart.activeBots c7rec.sessionId :=
  c7_pool_store_transitions.2.2.1 c7stStart c7rec "7@w.net" (by decide) (by decide)

/-! ### Claim C8 -/

/-- C8: when the store has no pending record for an identifier, submitting it
twice before processing makes the second submission fail — `/add-session`
with the store's duplicate-key error from the unique index on `sessionId`,
`/upload-session` with its duplicate check — and the store then holds
exactly one pending record for that identifier; the duplicate is rejected,
never overwritten. -/
theorem c8_duplicate_submission (st : St) (id : String) (phone : Option String)
    (mi hi : Option String) (h1 : id ≠ "")
    (h0 : st.pending.countP (fun r => r.sessionId == id) = 0) :
    (∃ st1, addSessionEndpoint st id phone = Except.ok st1 ∧
      addSessionEndpoint st1 id phone = Except.error dupKeyMsg ∧
      uploadSessionEndpoint st1 id phone true mi hi =
        Except.error "Session ID already exists" ∧
      st1.pending.countP (fun r => r.sessionId == id) = 1) ∧
    (∃ st2, uploadSessionEndpoint st id phone true mi hi = Except.ok st2 ∧
      uploadSessionEndpoint st2 id phone true mi hi =
        Except.error "Session ID already exists" ∧
      addSessionEndpoint st2 id phone = Except.error dupKeyMsg ∧
      st2.pending.countP (fun r => r.sessionId == id) = 1) := by
  have hmem : ∀ a ∈ st.pending, ¬ (a.sessionId == id) = true :=
    List.countP_eq_zero.mp h0
  have hany : st.pending.any (fun r => r.sessionId == id) = false :=
    List.any_eq_false.mpr hmem
  constructor
  · refine ⟨{ st with pending := st.pending ++ [⟨id, phone, none, none⟩] },
      ?_, ?_, ?_, ?_⟩
    · simp [addSessionEndpoint, insertPendingUnique, h1, hany]
    · simp [addSessionEndpoint, insertPendingUnique, h1, List.any_append]
    · simp [uploadSessionEndpoint, h1, List.any_append]
    · simp [List.countP_append, h0, List.countP_cons]
  · refine ⟨{ st with pending := st.pending ++ [⟨id, phone, mi, hi⟩] },
      ?_, ?_, ?_, ?_⟩
    · simp [uploadSessionEndpoint, insertPendingUnique, h1, hany]
    · simp [uploadSessionEndpoint, h1, List.any_append]
    · simp [addSessionEndpoint, insertPendingUnique, h1, List.any_append]
    · simp [List.countP_append, h0, List.countP_cons]

theorem c8_duplicate_submission_witness :
    (∃ st1, addSessionEndpoint emptySt "s1" none = Except.ok st1 ∧
      addSessionEndpoint st1 "s1" none = Except.error dupKeyMsg ∧
      uploadSessionEndpoint st1 "s1" none true none none =
        Except.error "Session ID already exists" ∧
      st1.pending.countP (fun r => r.sessionId == "s1") = 1) ∧
    (∃ st2, uploadSessionEndpoint emptySt "s1" none true none none = Except.ok st2 ∧
      uploadSessionEndpoint st2 "s1" none true none none =
        Except.error "Session ID already exists" ∧
      addSessionEndpoint st2 "s1" none = Except.error dupKeyMsg ∧
      st2.pending.countP (fun r => r.sessionId == "s1") = 1) :=
  c8_duplicate_submission emptySt "s1" none none none (by decide) (by decide)

/-! ### Claim C9 -/

/-- C9 (counterexample): a per-record failure on a record with no declared
phone number is caught and terminal (the pending record is removed), but NO
`expiredjid` audit document is written — the conversion to "a terminal
outcome plus an ExpiredRecord audit entry" does not always produce the audit
entry. -/
theorem c9_counterexample :
    (catchBlock c9st c9rec).expired = [] ∧
    (catchBlock c9st c9rec).pending = [] := by
  decide

/-- C9 (amended): every per-record failure is caught by `processSession`'s
catch block, which always removes the pending record and never aborts the
loop — after a failing record the loop continues with the remaining
snapshot; the `expiredjid` audit entry, however, is written only when the
record's declared phone number is non-empty; and only the startup store
connection failure is fatal (`process.exit`). -/
theorem c9_error_containment :
    (∀ st rec, (catchBlock st rec).pending =
      st.pending.eraseP (fun r => r.sessionId == rec.sessionId)) ∧
    (∀ st rec, extractPhoneNumber (rec.phoneNumber.getD "") = "" →
      (catchBlock st rec).expired = st.expired) ∧
    (∀ st rec, extractPhoneNumber (rec.phoneNumber.getD "") ≠ "" →
      (catchBlock st rec).expired = st.expired ++
        [⟨extractPhoneNumber (rec.phoneNumber.getD ""), "Invalid or expired session"⟩]) ∧
    (∀ env r rs st q, env.connectOk r.sessionId = false →
      getRunningBotsCount env.storeOk st < MAX_BOTS →
      processLoop env (r :: rs) st q = processLoop env rs (catchBlock st r) q) ∧
    (startApplication false = StartResult.exited ∧
      startApplication true = StartResult.started) := by
  refine ⟨?_, ?_, ?_, ?_, rfl, rfl⟩
  · intro st rec
    simp only [catchBlock, deleteOnePending, addToExpiredJids]
    split <;> rfl
  · intro st rec hp
    simp [catchBlock, deleteOnePending, addToExpiredJids, hp]
  · intro st rec hp
    simp [catchBlock, deleteOnePending, addToExpiredJids, hp]
  · intro env r rs st q hc hlt
    simp only [processLoop]
    rw [if_neg (Nat.not_le.mpr hlt),
      processSessionSync1_gate_open env.storeOk _ st r hlt, hc]
    simp

theorem c9_error_containment_witness :
    processLoop envFail (c9rec :: []) c9st [] =
      processLoop envFail [] (catchBlock c9st c9rec) [] :=
  c9_error_containment.2.2.2.1 envFail c9rec [] c9st [] rfl (by decide)

/-! ### Claim C10 -/

/-- C10: when the store query inside `getRunningBotsCount` throws, the catch
block returns 0 instead of propagating; the capacity gate therefore observes
zero running workers and lets `processSession` proceed to create a
connection even when `MAX_BOTS` workers are already recorded as running —
the capacity check fails open. -/
theorem c10_fail_open (st : St) (rec : PendingRecord)
    (_hfull : MAX_BOTS ≤ st.running.length) :
    getRunningBotsCount false st = 0 ∧
    getRunningBotsCount false st < MAX_BOTS ∧
    (processSessionSync1 false true st rec).2 = ProcResult.handlerInstalled ∧
    (processSessionSync1 false true st rec).1 = st := by
  refine ⟨rfl, ?_, ?_, ?_⟩
  · simp [getRunningBotsCount, MAX_BOTS]
  · simp [processSessionSync1, getRunningBotsCount, MAX_BOTS]
  · simp [processSessionSync1, getRunningBotsCount, MAX_BOTS]

theorem c10_fail_open_witness :
    getRunningBotsCount false fullSt = 0 ∧
    getRunningBotsCount false fullSt < MAX_BOTS ∧
    (processSessionSync1 false true fullSt c3rec).2 = ProcResult.handlerInstalled ∧
    (processSessionSync1 false true fullSt c3rec).1 = fullSt :=
  c10_fail_open fullSt c3rec (by decide)

end Trekker
